import Mathlib

/-!
Verification development for the Tagme tag-voting service
(source files: src/token.rs, src/models.rs, src/main.rs).

The definitions below are a shallow embedding of the Rust source:

* Errors `(StatusCode, &'static str)` become `Err := Nat × String`,
  with the status code as its numeric value (400, 401, 403, 404, 500).
* `UserStatus` / `UserData` (models.rs) become an inductive with the shared
  payload, and the accessor methods become `Except`-valued functions.
* `Token` (token.rs) is embedded with `u64` as `Nat` and `i64` timestamps
  as `Int` (unix timestamps are far from the i64 bounds, so two's-complement
  wraparound is not modelled).  The keyed SHA-256 digest
  `Token::signature(&TOKEN_SECRET_KEY, sub, iat, exp)` is abstracted as a
  function parameter `sig : Nat → Int → Int → Nat` with the process secret
  captured inside it; no property of the digest beyond being a function of
  `(sub, iat, exp)` is used anywhere.
-/

namespace Tagme

/-- `(StatusCode, &'static str)` error pairs from the Rust handlers. -/
abbrev Err := Nat × String

/-- `UserData` from models.rs. -/
structure UserData where
  topics : List String
  access_token : String
  login : String
  name : String
  avatar_url : String
  bio : String
deriving DecidableEq, Repr

/-- `UserStatus` from models.rs: three variants sharing the same payload. -/
inductive UserStatus where
  | Normal (data : UserData)
  | Admin (data : UserData)
  | Banned (data : UserData)
deriving DecidableEq, Repr

namespace UserStatus

/-- `UserStatus::data` (also models `into_data`, which returns the same payload by value). -/
def data : UserStatus → UserData
  | .Normal d | .Admin d | .Banned d => d

/-- Rebuild a `UserStatus` with the same tag and a new payload
(the effect of mutating through `data_mut` / `verified_data_mut`). -/
def withData : UserStatus → UserData → UserStatus
  | .Normal _, d => .Normal d
  | .Admin _, d => .Admin d
  | .Banned _, d => .Banned d

/-- `UserStatus::is_admin`. -/
def is_admin : UserStatus → Bool
  | .Admin _ => true
  | _ => false

/-- `UserStatus::is_banned`. -/
def is_banned : UserStatus → Bool
  | .Banned _ => true
  | _ => false

/-- `UserStatus::as_active`: fails with 403 when banned. -/
def as_active (s : UserStatus) : Except Err Unit :=
  match s.is_banned with
  | true => .error (403, "Attempted to request an invalid user")
  | false => .ok ()

/-- `UserStatus::as_authorized`: ok iff `uid == author || is_admin`. -/
def as_authorized (s : UserStatus) (uid author : Nat) : Except Err Unit :=
  match uid = author || s.is_admin with
  | true => .ok ()
  | false => .error (403, "Access to the resource is denied")

/-- `UserStatus::as_verified`: `as_active()?; as_authorized(uid, author)`. -/
def as_verified (s : UserStatus) (uid author : Nat) : Except Err Unit :=
  match s.as_active with
  | .error e => .error e
  | .ok _ => s.as_authorized uid author

/-- `UserStatus::verified_data`: `as_verified(uid, author)?; Ok(self.data())`. -/
def verified_data (s : UserStatus) (uid author : Nat) : Except Err UserData :=
  match s.as_verified uid author with
  | .error e => .error e
  | .ok _ => .ok s.data

end UserStatus

/-- `Token` from token.rs (`sub: u64, iat: i64, exp: i64, sign: [u8; 32]`);
the 32-byte signature value is represented abstractly by a `Nat`. -/
structure Token where
  sub : Nat
  iat : Int
  exp : Int
  sign : Nat
deriving DecidableEq, Repr

namespace Token

/-- `Token::is_valid` at time `now` (`time::UtcDateTime::now().unix_timestamp()`):
`self.sign == Self::signature(&TOKEN_SECRET_KEY, self.sub, self.iat, self.exp)
  && (self.iat - now) + (self.exp - now) > 0`. -/
def is_valid (sig : Nat → Int → Int → Nat) (t : Token) (now : Int) : Bool :=
  (t.sign == sig t.sub t.iat t.exp) && decide ((t.iat - now) + (t.exp - now) > 0)

/-- `Token::new(sub)` at time `now`: `iat = now`, `exp = iat + 2_000_000`,
signed over `(sub, iat, exp)`. -/
def new (sig : Nat → Int → Int → Nat) (sub : Nat) (now : Int) : Token :=
  { sub := sub, iat := now, exp := now + 2000000, sign := sig sub now (now + 2000000) }

/-- `Token::update` at time `now`: `None` unless valid, otherwise a fresh token
with `iat` refreshed to `now`, the same `sub`/`exp`, and a fresh signature. -/
def update (sig : Nat → Int → Int → Nat) (t : Token) (now : Int) : Option Token :=
  match t.is_valid sig now with
  | true => some { sub := t.sub, iat := now, exp := t.exp, sign := sig t.sub now t.exp }
  | false => none

end Token

/-- `Topic` from models.rs.  `HashMap<String, u32>` is embedded as an
association list and `HashSet<String>` as a list used with set semantics. -/
structure Topic where
  author : Nat
  description : String
  tags : List (String × Nat)
  pending_tags : List String
deriving DecidableEq, Repr

/-- `HashMap::get` on the tag map: first entry with the given key. -/
def lookupTag (tag : String) : List (String × Nat) → Option Nat
  | [] => none
  | (t, c) :: rest => if t = tag then some c else lookupTag tag rest

/-- The effect of `*count += 1` through `HashMap::get_mut(&tag)`:
the entry for `tag` is incremented, every other entry is untouched. -/
def bumpTag (tag : String) : List (String × Nat) → List (String × Nat)
  | [] => []
  | (s, c) :: rest => if s = tag then (s, c + 1) :: rest else (s, c) :: bumpTag tag rest

/-- The key set of the tag map (`HashMap` keys). -/
def tagKeys (l : List (String × Nat)) : List String :=
  l.map Prod.fst

/-- `HashSet::insert` on `pending_tags` (sets hold no duplicates). -/
def insertPending (tag : String) (l : List String) : List String :=
  if tag ∈ l then l else tag :: l

/-- `HashSet::remove` / `HashMap::remove` on a list with set semantics. -/
def removePending (tag : String) (l : List String) : List String :=
  l.filter (fun s => s ≠ tag)

/-- `HashMap::remove` on the tag map. -/
def removeTag (tag : String) (l : List (String × Nat)) : List (String × Nat) :=
  l.filter (fun p => p.1 ≠ tag)

/-- The topic built by the creation branch of `topic_handler` (main.rs):
`Topic { author: uid, description, tags: HashMap::new(), pending_tags: HashSet::new() }`. -/
def newTopic (uid : Nat) (description : String) : Topic :=
  { author := uid, description := description, tags := [], pending_tags := [] }

/-- The tag mutation at the heart of `add_tags_handler` (main.rs):
if the tag is already a key of `tags`, its count is incremented; otherwise,
when the caller passes the verified check, the tag is inserted into `tags`
with count 1 and removed from `pending_tags`; otherwise it is inserted into
`pending_tags`. -/
def addTagsStep (is_owner : Bool) (tag : String) (t : Topic) : Topic :=
  match lookupTag tag t.tags with
  | some _ => { t with tags := bumpTag tag t.tags }
  | none =>
    match is_owner with
    | true => { t with tags := (tag, 1) :: t.tags,
                       pending_tags := removePending tag t.pending_tags }
    | false => { t with pending_tags := insertPending tag t.pending_tags }

/-- The tag mutation of `del_tags_handler` (main.rs):
`tags.remove(&tag); pending_tags.remove(&tag)`. -/
def delTagsStep (tag : String) (t : Topic) : Topic :=
  { t with tags := removeTag tag t.tags,
           pending_tags := removePending tag t.pending_tags }

/-- The spec invariant on a topic: no tag is both a key of `tags` and a
member of `pending_tags`. -/
def tagsDisjoint (t : Topic) : Prop :=
  ∀ s ∈ tagKeys t.tags, s ∉ t.pending_tags

instance (t : Topic) : Decidable (tagsDisjoint t) :=
  List.decidableBAll _ _

/-- `Top` from models.rs: `pub struct Top(pub Vec<String>)`. -/
structure Top where
  names : List String
deriving DecidableEq, Repr

/-- The three `DbType` record kinds of models.rs. -/
inductive DbKind where
  | User
  | Topic
  | Top
deriving DecidableEq, Repr

/-- `DbType::prefix` for each kind (models.rs): `"@"`, `"#"`, `"!top"`. -/
def prefixStr : DbKind → String
  | .User => "@"
  | .Topic => "#"
  | .Top => "!top"

/-- The physical key built by `DbHelper` (models.rs):
`[V::prefix().as_bytes(), &key.to_key()].concat()`.  Bytes are `Nat`s; the
prefixes are ASCII, so their UTF-8 bytes are their code points. -/
def physKey (k : DbKind) (key : List Nat) : List Nat :=
  ((prefixStr k).toList.map Char.toNat) ++ key

/-- `ToKey for u64`: `to_le_bytes().to_vec()` — eight little-endian bytes. -/
def u64ToKey (n : Nat) : List Nat :=
  (List.range 8).map (fun i => n / 256 ^ i % 256)

/-- `ToKey for String` / `&str`: `as_bytes().to_vec()` (code points suffice
for the ASCII keys exercised here). -/
def strToKey (s : String) : List Nat :=
  s.toList.map Char.toNat

/-!
The sled store as seen through `DbHelper` (models.rs).  Thanks to the kind
prefixes (proved collision-free below), the flat byte store is faithfully
viewed as three independent typed maps; the `Top` record lives at the single
key `""`.  `DbHelper::get` on a present key decodes what `insert` wrote
(rmp_serde round-trip), so serialization is elided and records are stored
as values.
-/
structure Store where
  users : Nat → Option UserStatus
  topics : String → Option Tagme.Topic
  top : Option Tagme.Top

/-- `DbHelper::insert` of a `UserStatus` under a `u64` key. -/
def insertUser (s : Store) (uid : Nat) (v : UserStatus) : Store :=
  { s with users := fun u => if u = uid then some v else s.users u }

/-- `DbHelper::insert` of a `Topic` under a `String` key. -/
def insertTopic (s : Store) (name : String) (v : Tagme.Topic) : Store :=
  { s with topics := fun t => if t = name then some v else s.topics t }

/-- `DbHelper::insert` of the `Top` singleton (key `""`). -/
def insertTop (s : Store) (v : Tagme.Top) : Store :=
  { s with top := some v }

/-- `DbHelper::remove` of a `Topic`. -/
def removeTopic (s : Store) (name : String) : Store :=
  { s with topics := fun t => if t = name then none else s.topics t }

/-- The `(StatusCode::NOT_FOUND, "Not found")` error of `get_or_not_found`. -/
def notFoundErr : Err := (404, "Not found")

/-- The `(StatusCode::UNAUTHORIZED, "Login required")` error of
`OptionalToken::auth` (token.rs). -/
def loginRequiredErr : Err := (401, "Login required")

/-- `with_transaction` (models.rs): run the operation against the store;
commit its writes on success, discard all of them and surface its error on
failure.  The result pairs the store after the call with the error, if any. -/
def with_transaction (db : Store) (op : Store → Except Err Store) : Store × Option Err :=
  match op db with
  | .ok s => (s, none)
  | .error e => (db, some e)

/-- The transaction body of `del_topic` (main.rs): read the topic and the
caller, run the verified check against the topic author, drop the topic name
from the caller's topic list, from the Top list, and remove the topic record. -/
def del_topic_txn (uid : Nat) (topic : String) (s : Store) : Except Err Store :=
  match s.topics topic with
  | none => .error notFoundErr
  | some topic_data =>
    match s.users uid with
    | none => .error notFoundErr
    | some user_status =>
      match user_status.as_verified uid topic_data.author with
      | .error e => .error e
      | .ok _ =>
        let user := user_status.data
        let user_status := user_status.withData
          { user with topics := user.topics.filter (fun t => t ≠ topic) }
        let s := insertUser s uid user_status
        let top := (s.top).getD ⟨[]⟩
        let top : Tagme.Top := ⟨top.names.filter (fun t => t ≠ topic)⟩
        let s := insertTop s top
        .ok (removeTopic s topic)

/-- The `del_topic` handler (main.rs): `token.lock().await.auth()?` outside
the transaction, then the transaction body above. -/
def del_topic (uid? : Option Nat) (topic : String) (db : Store) : Store × Option Err :=
  match uid? with
  | none => (db, some loginRequiredErr)
  | some uid => with_transaction db (del_topic_txn uid topic)

/-- The transaction body of `ban_user` (main.rs): the caller must exist and
be an Admin, then the target's status is rewritten to `Banned` around the
same payload. -/
def ban_user_txn (admin_uid target : Nat) (s : Store) : Except Err Store :=
  match s.users admin_uid with
  | none => .error notFoundErr
  | some admin_status =>
    match admin_status.is_admin with
    | false => .error (403, "No, Fuck You!")
    | true =>
      match s.users target with
      | none => .error notFoundErr
      | some user_status =>
        .ok (insertUser s target (UserStatus.Banned user_status.data))

/-- The `ban_user` handler (main.rs): authentication, then the transaction. -/
def ban_user (uid? : Option Nat) (target : Nat) (db : Store) : Store × Option Err :=
  match uid? with
  | none => (db, some loginRequiredErr)
  | some admin_uid => with_transaction db (ban_user_txn admin_uid target)

/-- The transaction body of `admin_handler` (main.rs): rewrite the target's
status to `Admin` (query key `op`) or `Normal` (query key `deop`) around the
same payload.  The handler extracts no token and performs no caller check. -/
def admin_handler_txn (is_op : Bool) (uid : Nat) (s : Store) : Except Err Store :=
  match s.users uid with
  | none => .error notFoundErr
  | some user_status =>
    match is_op with
    | true => .ok (insertUser s uid (UserStatus.Admin user_status.data))
    | false => .ok (insertUser s uid (UserStatus.Normal user_status.data))

/-- The `admin_handler` endpoint (main.rs): parses the uid from the query
string and runs the transaction; there is no caller identity at all. -/
def admin_handler (is_op : Bool) (uid : Nat) (db : Store) : Store × Option Err :=
  with_transaction db (admin_handler_txn is_op uid)

/-- The transaction body of `add_tags_handler` (main.rs): read the topic,
compute `is_owner` from the optional caller (`false` when there is no token,
when the caller record is missing, or when `verified_data` fails), apply the
tag mutation and store the topic back. -/
def add_tags_txn (uid? : Option Nat) (topic tag : String) (s : Store) : Except Err Store :=
  match s.topics topic with
  | none => .error notFoundErr
  | some topic_data =>
    let is_owner : Bool :=
      match uid? with
      | none => false
      | some uid =>
        match s.users uid with
        | none => false
        | some st => (st.verified_data uid topic_data.author).isOk
    .ok (insertTopic s topic (addTagsStep is_owner tag topic_data))

/-- The `add_tags_handler` endpoint (main.rs): the tag length guard
(`post.tag.is_empty() || post.tag.len() > 64`, byte length), then the
transaction; the token is read with `get_sub()`, never with `auth()`. -/
def add_tags_handler (uid? : Option Nat) (topic tag : String) (db : Store) : Store × Option Err :=
  match tag.utf8ByteSize = 0 || tag.utf8ByteSize > 64 with
  | true => (db, some (400, "Tag is invalid"))
  | false => with_transaction db (add_tags_txn uid? topic tag)

/-!  Concrete fixtures used by witnesses and counterexamples. -/

/-- An empty user payload. -/
def d0 : UserData := ⟨[], "", "", "", "", ""⟩

/-- A user payload whose topic list contains `"t"`. -/
def dT : UserData := ⟨["t"], "", "", "", "", ""⟩

/-- A topic authored by user 1. -/
def topicT : Topic := ⟨1, "d", [], []⟩

/-- A store with a single Normal user. -/
def db0 : Store :=
  { users := fun u => if u = 1 then some (.Normal d0) else none,
    topics := fun _ => none,
    top := none }

/-- A store with author 1 (Normal, topic list `["t"]`), admin 2, topic `"t"`
authored by 1, and `Top == ["t"]`. -/
def db1 : Store :=
  { users := fun u =>
      if u = 1 then some (.Normal dT) else if u = 2 then some (.Admin d0) else none,
    topics := fun t => if t = "t" then some topicT else none,
    top := some ⟨["t"]⟩ }

/-- A store where the author 1 is the only user. -/
def db2 : Store :=
  { users := fun u => if u = 1 then some (.Normal dT) else none,
    topics := fun t => if t = "t" then some topicT else none,
    top := some ⟨["t"]⟩ }

/-- A store with a single topic `"t"` carrying tag `"fast"` with count 1. -/
def db3 : Store :=
  { users := fun _ => none,
    topics := fun t => if t = "t" then some ⟨1, "", [("fast", 1)], []⟩ else none,
    top := none }

/-- A concrete topic with one accepted tag and one pending tag. -/
def t0 : Topic := ⟨1, "", [("a", 1)], ["b"]⟩

/-!  Helper lemmas about the tag-map operations. -/

theorem tagKeys_nil : tagKeys [] = [] := rfl

theorem tagKeys_cons (p : String × Nat) (rest : List (String × Nat)) :
    tagKeys (p :: rest) = p.1 :: tagKeys rest := rfl

theorem tagKeys_bumpTag (tag : String) (l : List (String × Nat)) :
    tagKeys (bumpTag tag l) = tagKeys l := by
  induction l with
  | nil => rfl
  | cons p rest ih =>
    rcases p with ⟨s, c⟩
    by_cases h : s = tag <;> simp [bumpTag, tagKeys_cons, h, ih]

theorem lookupTag_bumpTag (tag : String) (l : List (String × Nat)) :
    lookupTag tag (bumpTag tag l) = (lookupTag tag l).map (fun c => c + 1) := by
  induction l with
  | nil => rfl
  | cons p rest ih =>
    rcases p with ⟨s, c⟩
    by_cases h : s = tag
    · subst h
      simp [bumpTag, lookupTag]
    · simp [bumpTag, lookupTag, h, ih]

theorem lookupTag_eq_none (tag : String) (l : List (String × Nat)) :
    lookupTag tag l = none ↔ tag ∉ tagKeys l := by
  induction l with
  | nil => simp [lookupTag, tagKeys_nil]
  | cons p rest ih =>
    rcases p with ⟨s, c⟩
    by_cases h : s = tag
    · subst h
      simp [lookupTag, tagKeys_cons]
    · have h' : tag ≠ s := fun hx => h hx.symm
      simp [lookupTag, tagKeys_cons, h, h', ih]

theorem mem_insertPending (tag : String) (l : List String) :
    tag ∈ insertPending tag l := by
  unfold insertPending
  split <;> simp_all

theorem withData_data (s : UserStatus) (d : UserData) :
    (s.withData d).data = d := by
  cases s <;> rfl

/-!  Claim theorems. -/

/-- C1: `Token::is_valid` holds iff the stored signature equals the
recomputation over `(sub, iat, exp)` with the process secret and the
two-margin sum `(iat - now) + (exp - now)` is positive; moreover this timing
predicate is not the simple check `now < exp` — a token can satisfy it while
already past `exp`. -/
theorem token_is_valid_iff :
    (∀ (sig : Nat → Int → Int → Nat) (t : Token) (now : Int),
        t.is_valid sig now = true ↔
          (t.sign = sig t.sub t.iat t.exp ∧ (t.iat - now) + (t.exp - now) > 0)) ∧
    ∃ (sig : Nat → Int → Int → Nat) (t : Token) (now : Int),
        t.is_valid sig now = true ∧ ¬ now < t.exp := by
  constructor
  · intro sig t now
    simp [Token.is_valid]
  · exact ⟨fun _ _ _ => 0, ⟨0, 10, 4, 0⟩, 5, by decide, by decide⟩

/-- C7: `Token::new` issues a token with `iat = now`,
`exp = now + 2_000_000` (the fixed lifetime), a signature over
`(sub, iat, exp)`, and the fresh token is valid at issue time. -/
theorem token_new_spec (sig : Nat → Int → Int → Nat) (sub : Nat) (now : Int) :
    (Token.new sig sub now).iat = now ∧
    (Token.new sig sub now).exp = now + 2000000 ∧
    (Token.new sig sub now).sign = sig sub now (now + 2000000) ∧
    (Token.new sig sub now).is_valid sig now = true := by
  refine ⟨rfl, rfl, rfl, ?_⟩
  simp [Token.new, Token.is_valid]

/-- C6: `Token::update` returns `None` on an invalid token; on a valid one it
returns `Some` of a token with the same `sub` and `exp`, `iat` refreshed to
`now`, and a signature freshly computed over the new `(sub, iat, exp)`. -/
theorem token_update_spec (sig : Nat → Int → Int → Nat) (t : Token) (now : Int) :
    (t.is_valid sig now = false → t.update sig now = none) ∧
    (t.is_valid sig now = true →
      t.update sig now =
        some { sub := t.sub, iat := now, exp := t.exp, sign := sig t.sub now t.exp }) := by
  constructor <;> intro h <;> simp [Token.update, h]

/-- Witness for `token_update_spec`: a concrete valid token is renewed. -/
theorem token_update_spec_witness :
    Token.update (fun _ _ _ => 0) ⟨1, 0, 2000000, 0⟩ 0 = some ⟨1, 0, 2000000, 0⟩ :=
  (token_update_spec (fun _ _ _ => 0) ⟨1, 0, 2000000, 0⟩ 0).2 (by decide)

/-- C3: `as_verified` (hence `verified_data`) succeeds iff the status is not
`Banned` and the caller is the owner or the status is `Admin`; every failure
carries status code 403 (Forbidden). -/
theorem user_as_verified_iff (s : UserStatus) (uid author : Nat) :
    ((s.as_verified uid author = Except.ok ()) ↔
        (s.is_banned = false ∧ (uid = author ∨ s.is_admin = true))) ∧
    ((s.verified_data uid author = Except.ok s.data) ↔
        (s.is_banned = false ∧ (uid = author ∨ s.is_admin = true))) ∧
    (∀ e, s.as_verified uid author = Except.error e → e.1 = 403) := by
  cases s <;> by_cases h : uid = author <;>
    simp_all [UserStatus.as_verified, UserStatus.as_active, UserStatus.as_authorized,
      UserStatus.verified_data, UserStatus.is_banned, UserStatus.is_admin, UserStatus.data]

/-- Witness for `user_as_verified_iff`: a Banned owner is rejected with 403. -/
theorem user_as_verified_iff_witness :
    ((403 : Nat), "Attempted to request an invalid user").1 = 403 :=
  (user_as_verified_iff (UserStatus.Banned d0) 1 1).2.2
    (403, "Attempted to request an invalid user") rfl

/-- C5: physical keys of distinct record kinds never collide, whatever the
encoded logical keys are: the three prefixes `"@"`, `"#"`, `"!top"` start
with pairwise distinct bytes. -/
theorem physKey_namespace_disjoint (K1 K2 : DbKind) (k1 k2 : List Nat) :
    K1 ≠ K2 → physKey K1 k1 ≠ physKey K2 k2 := by
  have hu : (prefixStr DbKind.User).toList.map Char.toNat = [64] := by decide
  have ht : (prefixStr DbKind.Topic).toList.map Char.toNat = [35] := by decide
  have hp : (prefixStr DbKind.Top).toList.map Char.toNat = [33, 116, 111, 112] := by decide
  intro hne
  cases K1 <;> cases K2 <;> simp_all [physKey]

/-- Witness for `physKey_namespace_disjoint`: User vs Topic on equal raw keys. -/
theorem physKey_namespace_disjoint_witness :
    physKey DbKind.User [0] ≠ physKey DbKind.Topic [0] :=
  physKey_namespace_disjoint DbKind.User DbKind.Topic [0] [0] (by decide)

/-- C8: topic creation yields disjoint `tags`/`pending_tags`, and both the
tag-add and tag-delete mutations preserve the disjointness. -/
theorem tags_pending_disjoint_preserved (uid : Nat) (description : String)
    (is_owner : Bool) (tag : String) (t : Topic) :
    tagsDisjoint (newTopic uid description) ∧
    (tagsDisjoint t → tagsDisjoint (addTagsStep is_owner tag t)) ∧
    (tagsDisjoint t → tagsDisjoint (delTagsStep tag t)) := by
  refine ⟨?_, ?_, ?_⟩
  · intro s hs
    simp [newTopic, tagKeys_nil] at hs
  · intro hd
    unfold addTagsStep
    cases hl : lookupTag tag t.tags with
    | some c =>
      intro s hs
      rw [tagKeys_bumpTag] at hs
      exact hd s hs
    | none =>
      cases is_owner with
      | true =>
        dsimp only
        intro s hs
        rw [tagKeys_cons] at hs
        rcases List.mem_cons.mp hs with h | h
        · subst h
          simp [removePending, List.mem_filter]
        · intro hmem
          rcases List.mem_filter.mp hmem with ⟨hmem', _⟩
          exact hd s h hmem'
      | false =>
        dsimp only
        intro s hs hmem
        have hne : s ≠ tag := by
          rintro rfl
          exact (lookupTag_eq_none _ _).mp hl hs
        unfold insertPending at hmem
        split at hmem
        · exact hd s hs hmem
        · rcases List.mem_cons.mp hmem with h | h
          · exact hne h
          · exact hd s hs h
  · intro hd s hs hmem
    rcases List.mem_map.mp hs with ⟨p, hp, hps⟩
    rcases List.mem_filter.mp hp with ⟨hp', _⟩
    have hs' : s ∈ tagKeys t.tags := List.mem_map.mpr ⟨p, hp', hps⟩
    rcases List.mem_filter.mp hmem with ⟨hmem', _⟩
    exact hd s hs' hmem'

/-- Witness for `tags_pending_disjoint_preserved` on a concrete topic. -/
theorem tags_pending_disjoint_preserved_witness :
    tagsDisjoint (newTopic 1 "") ∧
    tagsDisjoint (addTagsStep true "b" t0) ∧
    tagsDisjoint (delTagsStep "b" t0) := by
  have h := tags_pending_disjoint_preserved 1 "" true "b" t0
  exact ⟨h.1, h.2.1 (by decide), h.2.2 (by decide)⟩

/-- C9: endorsing a tag already present with count `c` stores count `c + 1`
and leaves `pending_tags` untouched. -/
theorem add_existing_tag_increments (is_owner : Bool) (tag : String) (t : Topic) (c : Nat) :
    lookupTag tag t.tags = some c →
    lookupTag tag (addTagsStep is_owner tag t).tags = some (c + 1) ∧
    (addTagsStep is_owner tag t).pending_tags = t.pending_tags := by
  intro h
  unfold addTagsStep
  rw [h]
  constructor
  · rw [lookupTag_bumpTag, h]
    rfl
  · rfl

/-- Witness for `add_existing_tag_increments`: `"fast"` at count 2 goes to 3. -/
theorem add_existing_tag_increments_witness :
    lookupTag "fast" (addTagsStep false "fast" ⟨1, "", [("fast", 2)], []⟩).tags = some 3 ∧
    (addTagsStep false "fast" ⟨1, "", [("fast", 2)], []⟩).pending_tags = [] :=
  add_existing_tag_increments false "fast" ⟨1, "", [("fast", 2)], []⟩ 2 (by decide)

/-- C2 counterexample: in `db1`, the topic `"t"` is authored by user 1, and
the Admin user 2 passes the verified check against that author; the deletion
transaction commits (no error), the topic record is gone — yet the topic name
is still present in the author's stored topic list, because `del_topic`
rewrites the *caller's* record (`helper.get_or_not_found(&uid)` with the
caller's uid), not the author's. -/
theorem del_topic_author_list_cex :
    (UserStatus.Admin d0).as_verified 2 topicT.author = Except.ok () ∧
    (del_topic (some 2) "t" db1).2 = none ∧
    (del_topic (some 2) "t" db1).1.topics "t" = none ∧
    (del_topic (some 2) "t" db1).1.users 1 = some (UserStatus.Normal dT) ∧
    "t" ∈ dT.topics := by
  refine ⟨?_, ?_, ?_, ?_, ?_⟩
  · rfl
  · rfl
  · rfl
  · rfl
  · simp [dT]

/-- C2 (amended): the deletion transaction of `del_topic`, for an
authenticated caller passing the verified check against the topic author,
atomically removes the topic record, the Top-list entry, and the entry in the
*caller's* topic list; on any failure before commit the store is unchanged. -/
theorem del_topic_atomic (uid? : Option Nat) (topic : String) (db : Store) :
    (∀ uid topic_data user_status,
        uid? = some uid →
        db.topics topic = some topic_data →
        db.users uid = some user_status →
        user_status.as_verified uid topic_data.author = Except.ok () →
        (del_topic uid? topic db).2 = none ∧
        (del_topic uid? topic db).1.topics topic = none ∧
        topic ∉ ((del_topic uid? topic db).1.top.getD ⟨[]⟩).names ∧
        (del_topic uid? topic db).1.users uid =
          some (user_status.withData
            { user_status.data with
                topics := user_status.data.topics.filter (fun t => t ≠ topic) }) ∧
        topic ∉ user_status.data.topics.filter (fun t => t ≠ topic)) ∧
    (∀ e, (del_topic uid? topic db).2 = some e → (del_topic uid? topic db).1 = db) := by
  constructor
  · intro uid topic_data user_status h1 h2 h3 h4
    subst h1
    simp only [del_topic, with_transaction, del_topic_txn, h2, h3, h4]
    refine ⟨by simp, ?_, ?_, ?_, ?_⟩
    · simp [removeTopic]
    · simp [removeTopic, insertTop, insertUser, List.mem_filter]
    · simp [removeTopic, insertTop, insertUser]
    · simp [List.mem_filter]
  · intro e he
    cases uid? with
    | none => rfl
    | some uid =>
      simp only [del_topic, with_transaction] at he ⊢
      cases h : del_topic_txn uid topic db with
      | ok s => rw [h] at he; simp at he
      | error e2 => rfl

/-- Witness for `del_topic_atomic`: the author deletes their own topic in
`db2`, and an unauthenticated deletion leaves `db2` unchanged. -/
theorem del_topic_atomic_witness :
    ((del_topic (some 1) "t" db2).2 = none ∧
     (del_topic (some 1) "t" db2).1.topics "t" = none ∧
     "t" ∉ ((del_topic (some 1) "t" db2).1.top.getD ⟨[]⟩).names ∧
     (del_topic (some 1) "t" db2).1.users 1 =
       some ((UserStatus.Normal dT).withData
         { (UserStatus.Normal dT).data with
             topics := (UserStatus.Normal dT).data.topics.filter (fun t => t ≠ "t") }) ∧
     "t" ∉ (UserStatus.Normal dT).data.topics.filter (fun t => t ≠ "t")) ∧
    (del_topic none "t" db2).1 = db2 := by
  constructor
  · exact (del_topic_atomic (some 1) "t" db2).1 1 topicT (UserStatus.Normal dT) rfl rfl rfl rfl
  · exact (del_topic_atomic none "t" db2).2 loginRequiredErr rfl

/-- C4 counterexample: `db0` holds no Admin at all, yet the promote operation
(`admin_handler` with query key `op`) succeeds and flips user 1 to `Admin` —
`admin_handler` reads no token and performs no caller check, so a status
transition does not require an authenticated Admin caller. -/
theorem admin_handler_no_auth_cex :
    (∀ u st, db0.users u = some st → st.is_admin = false) ∧
    (admin_handler true 1 db0).2 = none ∧
    (admin_handler true 1 db0).1.users 1 = some (UserStatus.Admin d0) := by
  refine ⟨?_, rfl, rfl⟩
  intro u st h
  by_cases hu : u = 1
  · subst hu
    have hst : st = UserStatus.Normal d0 := by
      simpa [db0] using h.symm
    subst hst
    rfl
  · simp [db0, hu] at h

/-- The caller is authenticated and their stored status is Admin. -/
def callerIsAdmin (uid? : Option Nat) (db : Store) : Prop :=
  ∃ uid st, uid? = some uid ∧ db.users uid = some st ∧ st.is_admin = true

/-- C4 (amended): `ban_user` fails (Unauthenticated / NotFound / Forbidden)
and leaves the target's stored status unchanged unless the caller is
authenticated with stored status Admin; `admin_handler` (promote/demote), by
contrast, performs no caller check and succeeds for any caller whenever the
target user exists. -/
theorem status_transition_gate (uid? : Option Nat) (target : Nat) (db : Store) :
    (¬ callerIsAdmin uid? db →
      (ban_user uid? target db).2 ≠ none ∧
      (ban_user uid? target db).1.users target = db.users target) ∧
    (∀ is_op uid st, db.users uid = some st →
      (admin_handler is_op uid db).2 = none ∧
      (admin_handler is_op uid db).1.users uid =
        some (match is_op with
              | true => UserStatus.Admin st.data
              | false => UserStatus.Normal st.data)) := by
  constructor
  · intro hna
    cases uid? with
    | none => exact ⟨by simp [ban_user], rfl⟩
    | some a =>
      have hres : ∃ e, ban_user_txn a target db = Except.error e := by
        unfold ban_user_txn
        cases h : db.users a with
        | none => exact ⟨notFoundErr, rfl⟩
        | some st =>
          dsimp only
          cases hadm : st.is_admin with
          | false => exact ⟨(403, "No, Fuck You!"), rfl⟩
          | true => exact absurd ⟨a, st, rfl, h, hadm⟩ hna
      rcases hres with ⟨e, he⟩
      constructor
      · simp [ban_user, with_transaction, he]
      · simp [ban_user, with_transaction, he]
  · intro is_op uid st h
    cases is_op <;>
      simp [admin_handler, with_transaction, admin_handler_txn, h, insertUser]

/-- Witness for `status_transition_gate`: an unauthenticated ban fails and
leaves the target untouched, while a demote with no caller succeeds. -/
theorem status_transition_gate_witness :
    ((ban_user none 1 db0).2 ≠ none ∧ (ban_user none 1 db0).1.users 1 = db0.users 1) ∧
    ((admin_handler false 1 db0).2 = none ∧
     (admin_handler false 1 db0).1.users 1 = some (UserStatus.Normal d0)) := by
  constructor
  · exact (status_transition_gate none 1 db0).1 (by simp [callerIsAdmin])
  · exact (status_transition_gate none 1 db0).2 false 1 (UserStatus.Normal d0) rfl

/-- C10: `add_tags_handler` never authenticates; with no valid token at all
(and an in-range tag naming an existing topic) the transaction still commits:
a tag already in the map has its count incremented, a tag not in the map is
added to `pending_tags` — the unauthenticated caller mutates the stored topic
either way. -/
theorem add_tags_unauthenticated (topic tag : String) (db : Store) (topic_data : Topic) :
    db.topics topic = some topic_data →
    (tag.utf8ByteSize = 0 || tag.utf8ByteSize > 64) = false →
    (add_tags_handler none topic tag db).2 = none ∧
    (add_tags_handler none topic tag db).1.topics topic =
      some (addTagsStep false tag topic_data) ∧
    (∀ c, lookupTag tag topic_data.tags = some c →
      lookupTag tag (addTagsStep false tag topic_data).tags = some (c + 1)) ∧
    (lookupTag tag topic_data.tags = none →
      tag ∈ (addTagsStep false tag topic_data).pending_tags) := by
  intro h1 h2
  simp only [add_tags_handler, h2, with_transaction, add_tags_txn, h1]
  refine ⟨by simp, by simp [insertTopic], ?_, ?_⟩
  · intro c hc
    unfold addTagsStep
    rw [hc, lookupTag_bumpTag, hc]
    rfl
  · intro hn
    unfold addTagsStep
    rw [hn]
    exact mem_insertPending tag topic_data.pending_tags

/-- Witness for `add_tags_unauthenticated`: an anonymous request bumps
`"fast"` from 1 to 2 on topic `"t"` of `db3`. -/
theorem add_tags_unauthenticated_witness :
    (add_tags_handler none "t" "fast" db3).2 = none ∧
    (add_tags_handler none "t" "fast" db3).1.topics "t" =
      some (addTagsStep false "fast" ⟨1, "", [("fast", 1)], []⟩) ∧
    (∀ c, lookupTag "fast" (⟨1, "", [("fast", 1)], []⟩ : Topic).tags = some c →
      lookupTag "fast" (addTagsStep false "fast" ⟨1, "", [("fast", 1)], []⟩).tags =
        some (c + 1)) ∧
    (lookupTag "fast" (⟨1, "", [("fast", 1)], []⟩ : Topic).tags = none →
      "fast" ∈ (addTagsStep false "fast" ⟨1, "", [("fast", 1)], []⟩).pending_tags) :=
  add_tags_unauthenticated "t" "fast" db3 ⟨1, "", [("fast", 1)], []⟩ rfl (by decide)

end Tagme
